import Mathlib

/-!
Verification of the computational core of `src/power_calculator.py`.

The core is two Python functions, `calculate_power` and `calculate_sample_size`,
which delegate the noncentral-t power computation to an external routine
(statsmodels `TTestIndPower.solve_power` and `tt_ind_solve_power`).  The external
routine is not part of this repository, so it is abstracted as an explicit
function argument (`sp` for the power routine, `sn` for the inverse solver),
matching the argument lists the source passes:
  solve_power(effect_size, nobs1, ratio, alpha, alternative)
  tt_ind_solve_power(effect_size, alpha, power, ratio, alternative)

Numbers are embedded as rationals: every concrete constant in the source
(0.05, 0.8, 22, slider values) is an exact decimal, and all arithmetic the
core itself performs is field arithmetic plus Python `int()` truncation and
`np.ceil`.  Python's uncaught `ZeroDivisionError` in `calculate_sample_size`
(division by `students_per_teacher * outcome_share`) is modelled by an
`Option` result: `none` is the run that dies with the arithmetic fault.
-/

/-- The `alternative=` mode passed to the statsmodels routines
(the source always passes the string two-sided). -/
inductive Tail
  | twoSided
  | larger
  | smaller
deriving DecidableEq

/-- Type of the external power routine `TTestIndPower().solve_power`,
taking (effect_size, nobs1, ratio, alpha, alternative). -/
abbrev PowerRoutine := ℚ → ℚ → ℚ → ℚ → Tail → ℚ

/-- Type of the external inverse solver `tt_ind_solve_power`,
taking (effect_size, alpha, power, ratio, alternative). -/
abbrev SolveRoutine := ℚ → ℚ → ℚ → ℚ → Tail → ℚ

/-- Python `int(x)` on a real value: truncation toward zero. -/
def pyInt (x : ℚ) : ℤ := if 0 ≤ x then ⌊x⌋ else ⌈x⌉

/-- The design-effect computation (the spec's ClusterAdjustment), exactly the
`deff` branch appearing inline in both `calculate_power` (lines 14-21) and
`calculate_sample_size` (lines 34-38):
`1 + (students_per_teacher - 1) * icc` when `use_clustering and icc > 0`,
else `1`. -/
def deff_fn (students_per_teacher : ℤ) (use_clustering : Bool) (icc : ℚ) : ℚ :=
  if use_clustering ∧ 0 < icc then 1 + ((students_per_teacher : ℚ) - 1) * icc else 1

/-- `calculate_power` from `src/power_calculator.py` lines 10-31.
`n_treatment = int(n_teachers * outcome_share)`; `n_control = n_treatment` is
computed in the source but never passed (the routine gets `nobs1` and
`ratio=1`).  The clustering branch divides by the inline design effect. -/
def calculate_power (sp : PowerRoutine) (n_teachers : ℤ)
    (outcome_share effect_size : ℚ) (students_per_teacher : ℤ)
    (use_clustering : Bool) (icc : ℚ) : ℚ :=
  let n_treatment : ℤ := pyInt ((n_teachers : ℚ) * outcome_share)
  let effective_n_treatment : ℚ :=
    if use_clustering ∧ 0 < icc then
      let deff : ℚ := 1 + ((students_per_teacher : ℚ) - 1) * icc
      (n_treatment : ℚ) * (students_per_teacher : ℚ) / deff
    else
      (n_treatment : ℚ) * (students_per_teacher : ℚ)
  sp effect_size effective_n_treatment 1 0.05 Tail.twoSided

/-- `calculate_sample_size` from `src/power_calculator.py` lines 33-42.
The source computes `int(np.ceil((n * deff) / (students_per_teacher *
outcome_share))) * 2` with no guard on the divisor; when
`students_per_teacher * outcome_share = 0` the Python run dies with an
uncaught arithmetic fault (float division by zero, or `int(inf)` overflow),
modelled here as `none`. -/
def calculate_sample_size (sn : SolveRoutine) (effect_size outcome_share : ℚ)
    (students_per_teacher : ℤ) (use_clustering : Bool) (icc : ℚ) : Option ℤ :=
  let deff : ℚ := deff_fn students_per_teacher use_clustering icc
  let n : ℚ := sn effect_size 0.05 0.8 1 Tail.twoSided
  let denom : ℚ := (students_per_teacher : ℚ) * outcome_share
  if denom = 0 then none
  else some (pyInt ((⌈n * deff / denom⌉ : ℤ) : ℚ) * 2)

/-- The spec's formula for the per-arm observation count handed to the power
routine: `(n_units * outcome_share * units_per_cluster) / DesignEffect`, with
the product `n_units * outcome_share` taken as a real number (spec section 4.2
steps 1-3).  Stated from the spec's words, to be compared with what
`calculate_power` actually passes. -/
def spec_effective_nobs (n_teachers : ℤ) (outcome_share : ℚ)
    (students_per_teacher : ℤ) (use_clustering : Bool) (icc : ℚ) : ℚ :=
  (n_teachers : ℚ) * outcome_share * (students_per_teacher : ℚ) /
    deff_fn students_per_teacher use_clustering icc

/-- `pyInt` is the identity on integer values. -/
theorem pyInt_intCast (m : ℤ) : pyInt (m : ℚ) = m := by
  unfold pyInt
  split <;> simp

/-- `pyInt` is the floor on nonnegative values. -/
theorem pyInt_of_nonneg (x : ℚ) (h : 0 ≤ x) : pyInt x = ⌊x⌋ := by
  unfold pyInt
  simp [h]

/-- Under valid ranges (`units_per_cluster ≥ 1`), the design effect is at
least 1, whatever the clustering flag and icc: the clustering branch is only
taken when `icc > 0`. -/
theorem one_le_deff (students_per_teacher : ℤ) (use_clustering : Bool) (icc : ℚ)
    (hupc : 1 ≤ students_per_teacher) :
    1 ≤ deff_fn students_per_teacher use_clustering icc := by
  have h1 : (1:ℚ) ≤ (students_per_teacher : ℚ) := by exact_mod_cast hupc
  unfold deff_fn
  split_ifs with h
  · nlinarith [h.2]
  · exact le_refl 1

/-- Unfolding of `calculate_sample_size` away from the zero divisor:
the source returns `int(np.ceil((n * deff) / (students_per_teacher *
outcome_share))) * 2`, and `int` of the integer value `np.ceil` produces is
exact. -/
theorem sample_size_unfold (sn : SolveRoutine) (effect_size outcome_share : ℚ)
    (students_per_teacher : ℤ) (use_clustering : Bool) (icc : ℚ)
    (hd : (students_per_teacher : ℚ) * outcome_share ≠ 0) :
    calculate_sample_size sn effect_size outcome_share students_per_teacher use_clustering icc =
      some (⌈sn effect_size 0.05 0.8 1 Tail.twoSided *
        deff_fn students_per_teacher use_clustering icc /
        ((students_per_teacher : ℚ) * outcome_share)⌉ * 2) := by
  unfold calculate_sample_size
  rw [if_neg hd, pyInt_intCast]

/-- `calculate_power` delegates to the routine with per-arm observation count
`int(n_teachers * outcome_share) * students_per_teacher / deff`: the two
branches of the source agree with the single formula since the else branch
has design effect 1. -/
theorem power_unfold (sp : PowerRoutine) (n_teachers : ℤ)
    (outcome_share effect_size : ℚ) (students_per_teacher : ℤ)
    (use_clustering : Bool) (icc : ℚ) :
    calculate_power sp n_teachers outcome_share effect_size students_per_teacher use_clustering icc
      = sp effect_size
          ((pyInt ((n_teachers : ℚ) * outcome_share) : ℚ) * (students_per_teacher : ℚ) /
            deff_fn students_per_teacher use_clustering icc)
          1 0.05 Tail.twoSided := by
  unfold calculate_power deff_fn
  split_ifs with h
  · rfl
  · rw [div_one]

/-- A concrete stand-in for the external inverse solver, used to instantiate
theorems with hypotheses: it always reports a requirement of 99 per-arm
observations. -/
def cN : SolveRoutine := fun _ _ _ _ _ => 99

/-- A concrete stand-in for the external power routine, consistent with `cN`:
linear in the observation count and equal to the 0.8 target exactly at 99
observations. -/
def cPow : PowerRoutine := fun _ nobs _ _ _ => 4/5 * nobs / 99

/-- Consistency of an abstract solver pair at the settings the source fixes
(ratio 1, alpha 0.05, two-sided, target power 0.8): the power routine is
monotone in the observation count, and evaluating it at the inverse solver's
output recovers the 0.8 target. -/
def SolverSpec (sp : PowerRoutine) (sn : SolveRoutine) : Prop :=
  (∀ es x y : ℚ, x ≤ y → sp es x 1 0.05 Tail.twoSided ≤ sp es y 1 0.05 Tail.twoSided) ∧
  (∀ es : ℚ, sp es (sn es 0.05 0.8 1 Tail.twoSided) 1 0.05 Tail.twoSided = 0.8)

/-- The concrete pair `cPow`, `cN` is a consistent solver pair. -/
theorem cPow_cN_solverSpec : SolverSpec cPow cN := by
  constructor
  · intro es x y hxy
    simp only [cPow]
    gcongr
  · intro es
    norm_num [cPow, cN]

/-- C1: at `outcome_share = 0`, `calculate_sample_size` does not produce a
value at all: the unguarded division `(n * deff) / (students_per_teacher *
outcome_share)` has divisor zero and the Python run dies with an uncaught
arithmetic fault (modelled as `none`) instead of reporting a typed
`DegenerateInputError` — no such guard or error type exists in the source. -/
theorem sample_size_zero_share_faults (sn : SolveRoutine) (effect_size icc : ℚ)
    (students_per_teacher : ℤ) (use_clustering : Bool) :
    calculate_sample_size sn effect_size 0 students_per_teacher use_clustering icc = none := by
  unfold calculate_sample_size
  norm_num

/-- C2 (counterexample): the claim says the per-arm observation count passed
to the power routine is `(n_units * outcome_share * units_per_cluster) /
DesignEffect` with the product taken as a real number.  Probing
`calculate_power` with a routine that returns its `nobs1` argument shows that
at `n_units = 1`, `outcome_share = 1/2` (inside the claim's ranges) the
passed count is `int(1 * 1/2) * 22 = 0`, not the spec's `1 * 1/2 * 22 = 11`. -/
theorem power_nobs_not_spec_formula :
    calculate_power (fun _ nobs _ _ _ => nobs) 1 (1/2) (3/25) 22 false 0 ≠
      spec_effective_nobs 1 (1/2) 22 false 0 := by
  have hf : (⌊(1/2:ℚ)⌋ : ℤ) = 0 := by norm_num
  norm_num [calculate_power, spec_effective_nobs, deff_fn, pyInt, hf]

/-- C2 (amended): the per-arm observation count `calculate_power` passes to
the external routine is `int(n_units * outcome_share) * units_per_cluster /
DesignEffect`: the product `n_units * outcome_share` is truncated to an
integer by Python `int()` before being scaled by `units_per_cluster` and the
design effect. -/
theorem power_nobs_passed (sp : PowerRoutine) (n_teachers : ℤ)
    (outcome_share effect_size : ℚ) (students_per_teacher : ℤ)
    (use_clustering : Bool) (icc : ℚ) :
    calculate_power sp n_teachers outcome_share effect_size students_per_teacher use_clustering icc
      = sp effect_size
          ((pyInt ((n_teachers : ℚ) * outcome_share) : ℚ) * (students_per_teacher : ℚ) /
            deff_fn students_per_teacher use_clustering icc)
          1 0.05 Tail.twoSided :=
  power_unfold sp n_teachers outcome_share effect_size students_per_teacher use_clustering icc

/-- C3: for `units_per_cluster ≥ 1` and `icc ≥ 0`, the design-effect branch
shared by both core functions returns `1 + (units_per_cluster - 1) * icc`
when the clustering flag is set and `icc > 0`, and exactly `1` in every
other case (clustering disabled, or `icc ≤ 0`). -/
theorem deff_branch_cases (students_per_teacher : ℤ) (icc : ℚ) (use_clustering : Bool)
    (hupc : 1 ≤ students_per_teacher) (hicc : 0 ≤ icc) :
    (use_clustering = true → 0 < icc →
      deff_fn students_per_teacher use_clustering icc =
        1 + ((students_per_teacher : ℚ) - 1) * icc) ∧
    ((use_clustering = false ∨ icc ≤ 0) →
      deff_fn students_per_teacher use_clustering icc = 1) := by
  constructor
  · intro hu hp
    simp [deff_fn, hu, hp]
  · intro h
    rcases h with h | h
    · simp [deff_fn, h]
    · have hnp : ¬ (0 < icc) := not_lt.mpr h
      simp [deff_fn, hnp]

/-- C3 (witness): instantiation at `units_per_cluster = 22`, `icc = 1/5`. -/
theorem deff_branch_cases_wit :
    ((1:ℤ) ≤ 22 ∧ (0:ℚ) ≤ 1/5) ∧
    ((true = true → 0 < (1/5:ℚ) →
        deff_fn 22 true (1/5) = 1 + (((22:ℤ) : ℚ) - 1) * (1/5)) ∧
     ((true = false ∨ (1/5:ℚ) ≤ 0) → deff_fn 22 true (1/5) = 1)) :=
  ⟨⟨by norm_num, by norm_num⟩,
    deff_branch_cases 22 (1/5) true (by norm_num) (by norm_num)⟩

/-- C4: for `outcome_share ∈ (0,1]` and `units_per_cluster ≥ 1`,
`calculate_sample_size` returns `2 * ceil((n * deff) / (units_per_cluster *
outcome_share))`, where `n` is the inverse solver's output for the given
effect size at alpha 0.05, target power 0.8, ratio 1, two-sided, and `deff`
is the design-effect value. -/
theorem sample_size_formula (sn : SolveRoutine) (effect_size outcome_share : ℚ)
    (students_per_teacher : ℤ) (use_clustering : Bool) (icc : ℚ)
    (h0 : 0 < outcome_share) (h1 : outcome_share ≤ 1)
    (hupc : 1 ≤ students_per_teacher) :
    calculate_sample_size sn effect_size outcome_share students_per_teacher use_clustering icc =
      some (2 * ⌈sn effect_size 0.05 0.8 1 Tail.twoSided *
        deff_fn students_per_teacher use_clustering icc /
        ((students_per_teacher : ℚ) * outcome_share)⌉) := by
  have hupcQ : (0:ℚ) < (students_per_teacher : ℚ) := by
    exact_mod_cast lt_of_lt_of_le Int.one_pos hupc
  have hd : (students_per_teacher : ℚ) * outcome_share ≠ 0 :=
    ne_of_gt (mul_pos hupcQ h0)
  rw [sample_size_unfold sn effect_size outcome_share students_per_teacher use_clustering icc hd,
    mul_comm]

/-- C4 (witness): instantiation with the concrete solver `cN` at
effect size 0.12, full outcome share, 22 students per teacher. -/
theorem sample_size_formula_wit :
    (0 < (1:ℚ) ∧ (1:ℚ) ≤ 1 ∧ (1:ℤ) ≤ 22) ∧
    calculate_sample_size cN (3/25) 1 22 false 0 =
      some (2 * ⌈cN (3/25) 0.05 0.8 1 Tail.twoSided * deff_fn 22 false 0 / (((22:ℤ) : ℚ) * 1)⌉) :=
  ⟨⟨by norm_num, by norm_num, by norm_num⟩,
    sample_size_formula cN (3/25) 1 22 false 0 (by norm_num) (by norm_num) (by norm_num)⟩

/-- C6: with clustering on, `units_per_cluster > 1` and `icc ∈ (0,1]`, the
design effect exceeds 1, and it is strictly increasing in icc. -/
theorem deff_gt_one_strict_mono (students_per_teacher : ℤ)
    (h : 1 < students_per_teacher) :
    (∀ icc : ℚ, 0 < icc → icc ≤ 1 → 1 < deff_fn students_per_teacher true icc) ∧
    (∀ icc1 icc2 : ℚ, 0 < icc1 → icc1 < icc2 → icc2 ≤ 1 →
      deff_fn students_per_teacher true icc1 < deff_fn students_per_teacher true icc2) := by
  have hq : (1:ℚ) < (students_per_teacher : ℚ) := by exact_mod_cast h
  constructor
  · intro icc h0 h1
    have hc : (true : Bool) ∧ 0 < icc := ⟨rfl, h0⟩
    unfold deff_fn
    rw [if_pos hc]
    nlinarith
  · intro icc1 icc2 h0 h12 h2
    have hc1 : (true : Bool) ∧ 0 < icc1 := ⟨rfl, h0⟩
    have hc2 : (true : Bool) ∧ 0 < icc2 := ⟨rfl, lt_trans h0 h12⟩
    unfold deff_fn
    rw [if_pos hc1, if_pos hc2]
    nlinarith

/-- C6 (witness): instantiation at `units_per_cluster = 22`,
`icc = 1/10` and `icc = 1/5`. -/
theorem deff_gt_one_strict_mono_wit :
    (1:ℤ) < 22 ∧
    (0 < (1/10:ℚ) ∧ (1/10:ℚ) ≤ 1 ∧ 1 < deff_fn 22 true (1/10)) ∧
    (0 < (1/10:ℚ) ∧ (1/10:ℚ) < 1/5 ∧ (1/5:ℚ) ≤ 1 ∧
      deff_fn 22 true (1/10) < deff_fn 22 true (1/5)) :=
  ⟨by norm_num,
   ⟨by norm_num, by norm_num,
    (deff_gt_one_strict_mono 22 (by norm_num)).1 (1/10) (by norm_num) (by norm_num)⟩,
   ⟨by norm_num, by norm_num, by norm_num,
    (deff_gt_one_strict_mono 22 (by norm_num)).2 (1/10) (1/5) (by norm_num) (by norm_num)
      (by norm_num)⟩⟩

/-- C7: with clustering on and 22 units per cluster, the total returned by
`calculate_sample_size` at `icc = 0.2` is at least its value at `icc = 0`
(all else fixed), for any positive outcome share and any inverse-solver
output that is nonnegative (the external routine returns a positive
requirement). -/
theorem sample_size_monotone_icc (sn : SolveRoutine) (effect_size outcome_share : ℚ)
    (t0 t1 : ℤ) (hos : 0 < outcome_share)
    (hn : 0 ≤ sn effect_size 0.05 0.8 1 Tail.twoSided)
    (h0 : calculate_sample_size sn effect_size outcome_share 22 true 0 = some t0)
    (h1 : calculate_sample_size sn effect_size outcome_share 22 true (1/5) = some t1) :
    t0 ≤ t1 := by
  have hd : ((22:ℤ) : ℚ) * outcome_share ≠ 0 := by
    have : (0:ℚ) < ((22:ℤ) : ℚ) * outcome_share := by positivity
    exact ne_of_gt this
  rw [sample_size_unfold sn effect_size outcome_share 22 true 0 hd] at h0
  rw [sample_size_unfold sn effect_size outcome_share 22 true (1/5) hd] at h1
  have e0 : deff_fn 22 true 0 = 1 := by norm_num [deff_fn]
  have e1 : deff_fn 22 true (1/5) = 26/5 := by norm_num [deff_fn]
  rw [e0] at h0
  rw [e1] at h1
  have hden : (0:ℚ) < ((22:ℤ) : ℚ) * outcome_share := by positivity
  have harg : sn effect_size 0.05 0.8 1 Tail.twoSided * 1 / (((22:ℤ) : ℚ) * outcome_share) ≤
      sn effect_size 0.05 0.8 1 Tail.twoSided * (26/5) / (((22:ℤ) : ℚ) * outcome_share) := by
    gcongr
    linarith
  have hc : ⌈sn effect_size 0.05 0.8 1 Tail.twoSided * 1 / (((22:ℤ) : ℚ) * outcome_share)⌉ ≤
      ⌈sn effect_size 0.05 0.8 1 Tail.twoSided * (26/5) / (((22:ℤ) : ℚ) * outcome_share)⌉ :=
    Int.ceil_le_ceil harg
  have ht0 : ⌈sn effect_size 0.05 0.8 1 Tail.twoSided * 1 /
      (((22:ℤ) : ℚ) * outcome_share)⌉ * 2 = t0 := Option.some.inj h0
  have ht1 : ⌈sn effect_size 0.05 0.8 1 Tail.twoSided * (26/5) /
      (((22:ℤ) : ℚ) * outcome_share)⌉ * 2 = t1 := Option.some.inj h1
  rw [← ht0, ← ht1]
  exact mul_le_mul_of_nonneg_right hc (by norm_num)

/-- Helper for witnesses: with the concrete solver `cN` (99 observations per
arm), full outcome share and clustering on with icc 0, the total is
2 * ceil(99/22) = 10. -/
theorem cN_total_icc_zero : calculate_sample_size cN (3/25) 1 22 true 0 = some 10 := by
  have hc : (⌈(9/2:ℚ)⌉ : ℤ) = 5 := by
    rw [Int.ceil_eq_iff]
    norm_num
  norm_num [calculate_sample_size, cN, deff_fn, pyInt, hc]

/-- Helper for witnesses: with `cN`, full outcome share and icc 0.2 the
design effect is 26/5 and the total is 2 * ceil(99 * 26/5 / 22) = 48. -/
theorem cN_total_icc_fifth : calculate_sample_size cN (3/25) 1 22 true (1/5) = some 48 := by
  have hc : (⌈(117/5:ℚ)⌉ : ℤ) = 24 := by
    rw [Int.ceil_eq_iff]
    norm_num
  norm_num [calculate_sample_size, cN, deff_fn, pyInt, hc]

/-- C7 (witness): with the concrete solver `cN`, full outcome share,
clustering on and 22 units per cluster, the total at icc 0.2 (48) is at
least the total at icc 0 (10). -/
theorem sample_size_monotone_icc_wit :
    (0 < (1:ℚ) ∧ 0 ≤ cN (3/25) 0.05 0.8 1 Tail.twoSided) ∧
    calculate_sample_size cN (3/25) 1 22 true 0 = some 10 ∧
    calculate_sample_size cN (3/25) 1 22 true (1/5) = some 48 ∧
    (10:ℤ) ≤ 48 :=
  ⟨⟨by norm_num, by norm_num [cN]⟩, cN_total_icc_zero, cN_total_icc_fifth,
    sample_size_monotone_icc cN (3/25) 1 10 48 (by norm_num) (by norm_num [cN])
      cN_total_icc_zero cN_total_icc_fifth⟩

/-- C8: for valid inputs (`outcome_share ∈ (0,1]`, `units_per_cluster ≥ 1`,
nonnegative inverse-solver output), `calculate_sample_size` returns an even,
nonnegative integer; and at effect size 0.12, full outcome share, no
clustering, with a positive solver output, it returns an even integer ≥ 2. -/
theorem sample_size_even_nonneg (sn : SolveRoutine) (effect_size outcome_share : ℚ)
    (students_per_teacher : ℤ) (use_clustering : Bool) (icc : ℚ)
    (hos : 0 < outcome_share) (hos1 : outcome_share ≤ 1)
    (hupc : 1 ≤ students_per_teacher)
    (hn : 0 ≤ sn effect_size 0.05 0.8 1 Tail.twoSided) :
    (∃ t, calculate_sample_size sn effect_size outcome_share students_per_teacher
        use_clustering icc = some t ∧ Even t ∧ 0 ≤ t) ∧
    (0 < sn (3/25) 0.05 0.8 1 Tail.twoSided →
      ∃ t, calculate_sample_size sn (3/25) 1 22 false 0 = some t ∧ Even t ∧ 2 ≤ t) := by
  have hupcQ : (0:ℚ) < (students_per_teacher : ℚ) := by
    exact_mod_cast lt_of_lt_of_le Int.one_pos hupc
  constructor
  · have hd : (students_per_teacher : ℚ) * outcome_share ≠ 0 := ne_of_gt (mul_pos hupcQ hos)
    refine ⟨_, sample_size_unfold sn effect_size outcome_share students_per_teacher
      use_clustering icc hd, ⟨_, by ring⟩, ?_⟩
    have hdeff : (1:ℚ) ≤ deff_fn students_per_teacher use_clustering icc :=
      one_le_deff students_per_teacher use_clustering icc hupc
    have hq : 0 ≤ sn effect_size 0.05 0.8 1 Tail.twoSided *
        deff_fn students_per_teacher use_clustering icc /
        ((students_per_teacher : ℚ) * outcome_share) :=
      div_nonneg (mul_nonneg hn (by linarith)) (le_of_lt (mul_pos hupcQ hos))
    have := Int.ceil_nonneg hq
    positivity
  · intro h12
    have hd : ((22:ℤ) : ℚ) * 1 ≠ 0 := by norm_num
    refine ⟨_, sample_size_unfold sn (3/25) 1 22 false 0 hd, ⟨_, by ring⟩, ?_⟩
    have e : deff_fn 22 false 0 = 1 := by norm_num [deff_fn]
    have hq : 0 < sn (3/25) 0.05 0.8 1 Tail.twoSided * deff_fn 22 false 0 /
        (((22:ℤ) : ℚ) * 1) := by
      rw [e]
      apply div_pos (by linarith) (by norm_num)
    have h1 : 0 < ⌈sn (3/25) 0.05 0.8 1 Tail.twoSided * deff_fn 22 false 0 /
        (((22:ℤ) : ℚ) * 1)⌉ := Int.ceil_pos.mpr hq
    linarith

/-- C8 (witness): instantiation with the concrete solver `cN`. -/
theorem sample_size_even_nonneg_wit :
    (0 < (1:ℚ) ∧ (1:ℚ) ≤ 1 ∧ (1:ℤ) ≤ 22 ∧ 0 ≤ cN (3/25) 0.05 0.8 1 Tail.twoSided) ∧
    (∃ t, calculate_sample_size cN (3/25) 1 22 false 0 = some t ∧ Even t ∧ 0 ≤ t) ∧
    (0 < cN (3/25) 0.05 0.8 1 Tail.twoSided →
      ∃ t, calculate_sample_size cN (3/25) 1 22 false 0 = some t ∧ Even t ∧ 2 ≤ t) :=
  ⟨⟨by norm_num, le_refl 1, by norm_num, by norm_num [cN]⟩,
   (sample_size_even_nonneg cN (3/25) 1 22 false 0 (by norm_num) (le_refl 1)
      (by norm_num) (by norm_num [cN])).1,
   (sample_size_even_nonneg cN (3/25) 1 22 false 0 (by norm_num) (le_refl 1)
      (by norm_num) (by norm_num [cN])).2⟩

/-- C9: `calculate_power` performs no faulting arithmetic on valid inputs —
its only division is by the design effect, which is nonzero whenever
`units_per_cluster ≥ 1` — and at the degenerate input `n_units = 0` it
returns exactly the external routine's value at observation count 0 (the
routine's floor value), rather than failing. -/
theorem power_no_fault_zero_units (sp : PowerRoutine) (effect_size outcome_share icc : ℚ)
    (students_per_teacher : ℤ) (use_clustering : Bool)
    (hupc : 1 ≤ students_per_teacher) (hicc : 0 ≤ icc) :
    deff_fn students_per_teacher use_clustering icc ≠ 0 ∧
    calculate_power sp 0 outcome_share effect_size students_per_teacher use_clustering icc =
      sp effect_size 0 1 0.05 Tail.twoSided := by
  constructor
  · have h := one_le_deff students_per_teacher use_clustering icc hupc
    exact ne_of_gt (lt_of_lt_of_le one_pos h)
  · rw [power_unfold]
    have h0 : pyInt (((0:ℤ) : ℚ) * outcome_share) = 0 := by
      norm_num [pyInt]
    rw [h0]
    norm_num

/-- C9 (witness): instantiation with the concrete routine `cPow`,
clustering on, icc 0.2. -/
theorem power_no_fault_zero_units_wit :
    ((1:ℤ) ≤ 22 ∧ (0:ℚ) ≤ 1/5) ∧
    deff_fn 22 true (1/5) ≠ 0 ∧
    calculate_power cPow 0 1 (3/25) 22 true (1/5) = cPow (3/25) 0 1 0.05 Tail.twoSided :=
  ⟨⟨by norm_num, by norm_num⟩,
    power_no_fault_zero_units cPow (3/25) 1 (1/5) 22 true (by norm_num) (by norm_num)⟩

/-- C10: `calculate_power` depends on `outcome_share` only through the
truncated integer `int(n_teachers * outcome_share)`: two shares in [0,1]
with the same truncation give exactly the same power, so power is a step
function of the share. -/
theorem power_step_in_share (sp : PowerRoutine) (n_teachers : ℤ)
    (os1 os2 effect_size icc : ℚ) (students_per_teacher : ℤ) (use_clustering : Bool)
    (h1 : 0 ≤ os1) (h2 : os1 ≤ 1) (h3 : 0 ≤ os2) (h4 : os2 ≤ 1)
    (h : pyInt ((n_teachers : ℚ) * os1) = pyInt ((n_teachers : ℚ) * os2)) :
    calculate_power sp n_teachers os1 effect_size students_per_teacher use_clustering icc =
      calculate_power sp n_teachers os2 effect_size students_per_teacher use_clustering icc := by
  rw [power_unfold, power_unfold, h]

/-- C10 (witness): at `n_teachers = 4`, the shares 1/2 and 3/5 truncate to
the same integer 2 and give the same power. -/
theorem power_step_in_share_wit :
    ((0:ℚ) ≤ 1/2 ∧ (1/2:ℚ) ≤ 1 ∧ (0:ℚ) ≤ 3/5 ∧ (3/5:ℚ) ≤ 1 ∧
      pyInt (((4:ℤ) : ℚ) * (1/2)) = pyInt (((4:ℤ) : ℚ) * (3/5))) ∧
    calculate_power cPow 4 (1/2) (3/25) 22 false 0 =
      calculate_power cPow 4 (3/5) (3/25) 22 false 0 :=
  ⟨⟨by norm_num, by norm_num, by norm_num, by norm_num, by norm_num [pyInt]⟩,
    power_step_in_share cPow 4 (1/2) (3/5) (3/25) 0 22 false (by norm_num) (by norm_num)
      (by norm_num) (by norm_num) (by norm_num [pyInt])⟩

/-- Helper: with `cN` at half outcome share the total is 2 * ceil(99/11) = 18. -/
theorem cN_total_half_share : calculate_sample_size cN (3/25) (1/2) 22 false 0 = some 18 := by
  have hc : (⌈(9:ℚ)⌉ : ℤ) = 9 := by
    rw [Int.ceil_eq_iff]
    norm_num
  norm_num [calculate_sample_size, cN, deff_fn, pyInt, hc]

/-- Helper: with `cN` at full outcome share the total is 2 * ceil(99/22) = 10. -/
theorem cN_total_full_share : calculate_sample_size cN (3/25) 1 22 false 0 = some 10 := by
  have hc : (⌈(9/2:ℚ)⌉ : ℤ) = 5 := by
    rw [Int.ceil_eq_iff]
    norm_num
  norm_num [calculate_sample_size, cN, deff_fn, pyInt, hc]

/-- Helper: feeding 9 teachers at half share into `calculate_power` with the
concrete routine `cPow` gives 4/5 * (4 * 22) / 99 = 32/45: the truncation
`int(9 * 1/2) = 4` loses half a teacher. -/
theorem cPow_at_nine_half : calculate_power cPow 9 (1/2) (3/25) 22 false 0 = 32/45 := by
  have hf : (⌊(9/2:ℚ)⌋ : ℤ) = 4 := by
    rw [Int.floor_eq_iff]
    norm_num
  norm_num [calculate_power, cPow, pyInt, hf]

/-- C5 (counterexample): the round trip is not universal.  For every
consistent solver pair the claim asserts that feeding half of
`calculate_sample_size`'s output back into `calculate_power` with the same
settings yields power at least 0.8 - 1e-3; the concrete consistent pair
`cPow`/`cN` at outcome share 1/2 refutes it: the required total is 18, but
`int(9 * 1/2) = 4` truncates the fed-back arm and the power is 32/45 < 0.799. -/
theorem round_trip_not_universal :
    ¬ (∀ (sp : PowerRoutine) (sn : SolveRoutine), SolverSpec sp sn →
        ∀ (effect_size outcome_share icc : ℚ) (students_per_teacher : ℤ)
          (use_clustering : Bool) (t : ℤ),
          0 < outcome_share → outcome_share ≤ 1 → 1 ≤ students_per_teacher → 0 ≤ icc →
          0 ≤ sn effect_size 0.05 0.8 1 Tail.twoSided →
          calculate_sample_size sn effect_size outcome_share students_per_teacher
            use_clustering icc = some t →
          4/5 - 1/1000 ≤ calculate_power sp (t / 2) outcome_share effect_size
            students_per_teacher use_clustering icc) := by
  intro hcl
  have h := hcl cPow cN cPow_cN_solverSpec (3/25) (1/2) 0 22 false 18
    (by norm_num) (by norm_num) (by norm_num) (le_refl 0) (by norm_num [cN])
    cN_total_half_share
  have h2 : (18:ℤ) / 2 = 9 := by norm_num
  rw [h2, cPow_at_nine_half] at h
  norm_num at h

/-- C5 (amended): the round trip does hold at full outcome share.  For any
consistent solver pair (power routine monotone in the observation count and
recovering the 0.8 target at the inverse solver's output), feeding half of
`calculate_sample_size`'s output back into `calculate_power` with
`outcome_share = 1` and the same settings yields power at least 0.8 - 1e-3:
with no share truncation the ceiling only rounds the requirement up. -/
theorem round_trip_full_share (sp : PowerRoutine) (sn : SolveRoutine)
    (hs : SolverSpec sp sn) (effect_size icc : ℚ) (students_per_teacher : ℤ)
    (use_clustering : Bool) (t : ℤ)
    (hupc : 1 ≤ students_per_teacher) (hicc : 0 ≤ icc)
    (hn : 0 ≤ sn effect_size 0.05 0.8 1 Tail.twoSided)
    (ht : calculate_sample_size sn effect_size 1 students_per_teacher
      use_clustering icc = some t) :
    4/5 - 1/1000 ≤ calculate_power sp (t / 2) 1 effect_size
      students_per_teacher use_clustering icc := by
  have hupcQ : (0:ℚ) < (students_per_teacher : ℚ) := by
    exact_mod_cast lt_of_lt_of_le Int.one_pos hupc
  have hd : (students_per_teacher : ℚ) * 1 ≠ 0 := by
    rw [mul_one]
    exact ne_of_gt hupcQ
  rw [sample_size_unfold sn effect_size 1 students_per_teacher use_clustering icc hd] at ht
  rw [power_unfold]
  set n : ℚ := sn effect_size 0.05 0.8 1 Tail.twoSided with hn_def
  set D : ℚ := deff_fn students_per_teacher use_clustering icc with hD_def
  set q : ℚ := n * D / ((students_per_teacher : ℚ) * 1) with hq_def
  have htv : ⌈q⌉ * 2 = t := Option.some.inj ht
  have ht2 : t / 2 = ⌈q⌉ := by omega
  rw [ht2]
  have hp : pyInt ((⌈q⌉ : ℚ) * 1) = ⌈q⌉ := by
    rw [mul_one, pyInt_intCast]
  rw [hp]
  have hDpos : (0:ℚ) < D :=
    lt_of_lt_of_le one_pos (one_le_deff students_per_teacher use_clustering icc hupc)
  have hle : n ≤ (⌈q⌉ : ℚ) * (students_per_teacher : ℚ) / D := by
    rw [le_div_iff₀ hDpos]
    have h1 : q ≤ (⌈q⌉ : ℚ) := Int.le_ceil q
    have h2 : q * (students_per_teacher : ℚ) = n * D := by
      rw [hq_def]
      field_simp
    nlinarith [mul_le_mul_of_nonneg_right h1 (le_of_lt hupcQ)]
  have hmono := hs.1 effect_size n ((⌈q⌉ : ℚ) * (students_per_teacher : ℚ) / D) hle
  have hbase := hs.2 effect_size
  rw [← hn_def] at hbase
  rw [hbase] at hmono
  norm_num at hmono ⊢
  linarith

/-- C5 (witness): the amended round trip instantiated with the concrete
consistent pair `cPow`/`cN` at effect size 0.12, full share, no clustering:
the total is 10, and the fed-back power 4/5 * (5 * 22) / 99 = 8/9 exceeds
0.8 - 1e-3. -/
theorem round_trip_full_share_wit :
    (SolverSpec cPow cN ∧ (1:ℤ) ≤ 22 ∧ (0:ℚ) ≤ 0 ∧
      0 ≤ cN (3/25) 0.05 0.8 1 Tail.twoSided ∧
      calculate_sample_size cN (3/25) 1 22 false 0 = some 10) ∧
    4/5 - 1/1000 ≤ calculate_power cPow (10 / 2) 1 (3/25) 22 false 0 :=
  ⟨⟨cPow_cN_solverSpec, by norm_num, le_refl 0, by norm_num [cN], cN_total_full_share⟩,
    round_trip_full_share cPow cN cPow_cN_solverSpec (3/25) 0 22 false 10
      (by norm_num) (le_refl 0) (by norm_num [cN]) cN_total_full_share⟩
